import Mathlib

/-!
Formal model of the Android-Phone-Agent core (billing manager, action
interpreter, task-plan tracker, history summarization), shallowly embedded
from the Python sources under `phone_agent/`.

Conventions of the embedding:
* Python machine-level values coming out of `json.loads` are modelled by the
  inductive `Json` below; Python `float` prices and the results of `/` are
  modelled by exact rationals `ℚ`; Python `int` by `ℤ`.
* A Python function that can raise an uncaught exception is modelled with
  `Except String`; the `.error` case marks "an exception propagates".
* Device side effects are modelled by an explicit trace of `DeviceCall`s,
  with the boolean outcome of each call supplied by a `Device` record.
-/

namespace PhoneAgent

/-- JSON values as produced by Python's `json.loads`: `None`, booleans,
numbers, strings, arrays, and objects (ordered key/value lists). -/
inductive Json where
  | null : Json
  | bool (b : Bool) : Json
  | num (q : ℚ) : Json
  | str (s : String) : Json
  | arr (l : List Json) : Json
  | obj (m : List (String × Json)) : Json

/-- Python truthiness (`if x:`) on JSON-shaped values. -/
def truthy : Json → Bool
  | .null => false
  | .bool b => b
  | .num q => q ≠ 0
  | .str s => s ≠ ""
  | .arr l => !l.isEmpty
  | .obj m => !m.isEmpty

/-- Python `x == s` where `s` is a string literal: only equal strings match. -/
def pyEqStr (j : Json) (s : String) : Bool :=
  match j with
  | .str t => t == s
  | _ => false

/-- Python `n == j` where `n` is an `int`: numeric values (and booleans,
which are numeric in Python) compare by value, other types are unequal. -/
def pyEqInt (n : ℤ) (j : Json) : Bool :=
  match j with
  | .num q => (n : ℚ) == q
  | .bool b => (b && n == 1) || (!b && n == 0)
  | _ => false

/-- Raw lookup in a JSON object's key/value list (first binding wins, as in a
Python `dict`, whose keys are unique). -/
def dictRawGet (m : List (String × Json)) (k : String) : Option Json :=
  (m.find? (fun kv => kv.1 == k)).map (·.2)

/-- Python `d.get(k, default)` on an object. -/
def dictGetD (m : List (String × Json)) (k : String) (d : Json) : Json :=
  (dictRawGet m k).getD d

/-- Python `k in d` on an object. -/
def dictHas (m : List (String × Json)) (k : String) : Bool :=
  (dictRawGet m k).isSome

/-- Python `int(q)` on a nonnegative-or-negative rational: truncation toward
zero. -/
def pyInt (q : ℚ) : ℤ :=
  if 0 ≤ q then ⌊q⌋ else ⌈q⌉

/-- Python `str(...)` on JSON-shaped values, used only to build diagnostic
message strings. -/
def pyStr : Json → String
  | .null => "None"
  | .bool b => if b then "True" else "False"
  | .num q => if q.den == 1 then toString q.num else toString q
  | .str s => s
  | .arr _ => "[...]"
  | .obj _ => "{...}"

/-! ## Billing (`phone_agent/billing/models.py`, `phone_agent/billing/manager.py`) -/

/-- `PricingType` enumeration from `billing/models.py`. -/
inductive PricingType where
  | fixed
  | tiered
  | tiered_complex
  | free
  deriving DecidableEq

/-- `PriceTier` from `billing/models.py` (simple ladder over token count).
`max_tokens = none` models Python `None`. -/
structure PriceTier where
  min_tokens : ℤ := 0
  max_tokens : Option ℤ := none
  input_price : ℚ := 0
  output_price : ℚ := 0
  deriving DecidableEq

/-- `ComplexPriceTier` from `billing/models.py` (ladder keyed by input range
and optional output range). -/
structure ComplexPriceTier where
  input_min : ℤ := 0
  input_max : Option ℤ := none
  output_min : Option ℤ := none
  output_max : Option ℤ := none
  input_price : ℚ := 0
  output_price : ℚ := 0
  deriving DecidableEq

instance : Inhabited ComplexPriceTier := ⟨{}⟩

/-- `ModelPricing` from `billing/models.py`. -/
structure ModelPricing where
  vendor : String
  model : String
  display_name : Option String := none
  pricing_type : PricingType := .fixed
  input_price_per_million : ℚ := 0
  output_price_per_million : ℚ := 0
  tiers : List PriceTier := []
  complex_tiers : List ComplexPriceTier := []
  free_input_tokens : ℤ := 0
  free_output_tokens : ℤ := 0
  currency : String := "USD"

/-- `BillingManager._calculate_fixed_cost`. -/
def calculate_fixed_cost (pricing : ModelPricing) (prompt_tokens completion_tokens : ℤ) :
    ℚ × ℚ × ℚ :=
  let billable_prompt : ℤ := max 0 (prompt_tokens - pricing.free_input_tokens)
  let billable_completion : ℤ := max 0 (completion_tokens - pricing.free_output_tokens)
  let input_cost : ℚ := ((billable_prompt : ℚ) / 1000000) * pricing.input_price_per_million
  let output_cost : ℚ := ((billable_completion : ℚ) / 1000000) * pricing.output_price_per_million
  (input_cost, output_cost, input_cost + output_cost)

/-- The tier size computed by `_calculate_tiered_cost`:
`tier.max_tokens if tier.max_tokens else float("inf")` minus `tier.min_tokens`
— note the Python truthiness test, under which a declared `max_tokens` of `0`
(and `None`) both select `inf`.  `none` models an unbounded (infinite) size. -/
def pyTierSize (t : PriceTier) : Option ℤ :=
  match t.max_tokens with
  | none => none
  | some m => if m = 0 then none else some (m - t.min_tokens)

/-- `min remaining size` where `size = none` means `+∞`. -/
def minSize (remaining : ℤ) (size : Option ℤ) : ℤ :=
  match size with
  | none => remaining
  | some s => min remaining s

/-- Insertion of a tier in front of the first element whose `min_tokens` is
not smaller.  Used by `sortTiers` folding from the right, this places an
earlier-declared tier *before* every equal-`min_tokens` tier declared after
it, so equal keys keep their declaration order. -/
def insertTier (t : PriceTier) : List PriceTier → List PriceTier
  | [] => [t]
  | u :: us => if t.min_tokens ≤ u.min_tokens then t :: u :: us else u :: insertTier t us

/-- `sorted(pricing.tiers, key=lambda t: t.min_tokens)`: ascending insertion
sort by `min_tokens`, stable like Python's `sorted` (equal keys keep their
original relative order). -/
def sortTiers : List PriceTier → List PriceTier
  | [] => []
  | t :: ts => insertTier t (sortTiers ts)

/-- The loop body of `_calculate_tiered_cost`, with the two remaining counts
and the two cost accumulators threaded explicitly; the `break` on
`remaining_prompt <= 0 and remaining_completion <= 0` is the first test. -/
def tieredWalk : List PriceTier → ℤ → ℤ → ℚ → ℚ → ℚ × ℚ
  | [], _, _, ic, oc => (ic, oc)
  | t :: ts, rp, rc, ic, oc =>
    if rp ≤ 0 ∧ rc ≤ 0 then (ic, oc)
    else
      let size := pyTierSize t
      let pin := minSize rp size
      let ic' := if 0 < pin then ic + ((pin : ℚ) / 1000000) * t.input_price else ic
      let rp' := if 0 < pin then rp - pin else rp
      let cin := minSize rc size
      let oc' := if 0 < cin then oc + ((cin : ℚ) / 1000000) * t.output_price else oc
      let rc' := if 0 < cin then rc - cin else rc
      tieredWalk ts rp' rc' ic' oc'

/-- `BillingManager._calculate_tiered_cost`. -/
def calculate_tiered_cost (pricing : ModelPricing) (prompt_tokens completion_tokens : ℤ) :
    ℚ × ℚ × ℚ :=
  let (input_cost, output_cost) :=
    tieredWalk (sortTiers pricing.tiers) prompt_tokens completion_tokens 0 0
  (input_cost, output_cost, input_cost + output_cost)

/-- Whether a complex tier matches, exactly as tested by
`_calculate_complex_tiered_cost`: `input_min <= prompt` and, when bounds are
present, `prompt <= input_max`, `completion >= output_min`,
`completion <= output_max`. -/
def complexTierMatch (t : ComplexPriceTier) (prompt_tokens completion_tokens : ℤ) : Bool :=
  let input_match :=
    decide (t.input_min ≤ prompt_tokens) &&
      (match t.input_max with
       | none => true
       | some m => decide (prompt_tokens ≤ m))
  let output_match :=
    (match t.output_min with
     | none => true
     | some m => decide (completion_tokens ≥ m)) &&
      (match t.output_max with
       | none => true
       | some m => decide (completion_tokens ≤ m))
  input_match && output_match

/-- The tier-selection loop of `_calculate_complex_tiered_cost`: first match
in declaration order, `none` if no tier matches. -/
def findComplexTier (tiers : List ComplexPriceTier) (p c : ℤ) : Option ComplexPriceTier :=
  match tiers with
  | [] => none
  | t :: ts => if complexTierMatch t p c then some t else findComplexTier ts p c

/-- Flat application of a complex tier's per-million rates to the entire
token counts (the last three lines of `_calculate_complex_tiered_cost`). -/
def complexFlatCost (t : ComplexPriceTier) (p c : ℤ) : ℚ × ℚ × ℚ :=
  let input_cost := ((p : ℚ) / 1000000) * t.input_price
  let output_cost := ((c : ℚ) / 1000000) * t.output_price
  (input_cost, output_cost, input_cost + output_cost)

/-- `BillingManager._calculate_complex_tiered_cost` (including its fallback
to the simple tiered computation when `complex_tiers` is empty). -/
def calculate_complex_tiered_cost (pricing : ModelPricing)
    (prompt_tokens completion_tokens : ℤ) : ℚ × ℚ × ℚ :=
  if pricing.complex_tiers.isEmpty then
    if !pricing.tiers.isEmpty then
      calculate_tiered_cost pricing prompt_tokens completion_tokens
    else (0, 0, 0)
  else
    let matched :=
      match findComplexTier pricing.complex_tiers prompt_tokens completion_tokens with
      | some t => t
      | none => pricing.complex_tiers.getLastD default
    complexFlatCost matched prompt_tokens completion_tokens

/-- `BillingManager.calculate_cost`, over the result of the
`vendor:model` registry lookup (`none` models an unregistered model). -/
def calculate_cost (pricing? : Option ModelPricing) (prompt_tokens completion_tokens : ℤ) :
    ℚ × ℚ × ℚ :=
  match pricing? with
  | none => (0, 0, 0)
  | some pricing =>
    match pricing.pricing_type with
    | .free => (0, 0, 0)
    | .fixed => calculate_fixed_cost pricing prompt_tokens completion_tokens
    | .tiered => calculate_tiered_cost pricing prompt_tokens completion_tokens
    | .tiered_complex => calculate_complex_tiered_cost pricing prompt_tokens completion_tokens

/-! ### Spec-side billing definitions (written from the spec's words, for
refinement comparisons) -/

/-- Written from the spec's words: a complex tier matches when
`input_min <= prompt_tokens <= input_max` (if bounded) and the optional
output bounds (if present) are satisfied by `completion_tokens`. -/
def specComplexMatch (t : ComplexPriceTier) (p c : ℤ) : Bool :=
  decide (t.input_min ≤ p) && t.input_max.all (fun m => decide (p ≤ m)) &&
    t.output_min.all (fun m => decide (m ≤ c)) && t.output_max.all (fun m => decide (c ≤ m))

/-- Written from the spec's words: scan tiers in declaration order, select the
first match; if no tier matches, fall back to the last declared tier. -/
def specSelectComplexTier (tiers : List ComplexPriceTier) (p c : ℤ) : Option ComplexPriceTier :=
  match tiers.find? (fun t => specComplexMatch t p c) with
  | some t => some t
  | none => tiers.getLast?

/-- The per-tier capacity as described by the claim for simple tiered
pricing: `tier_max - tier_min` when a max is declared, unbounded otherwise
(note: a declared max of `0` yields a capacity of `-min_tokens` here, unlike
the implementation's truthiness test). -/
def claimTierSize (t : PriceTier) : Option ℤ :=
  t.max_tokens.map (fun m => m - t.min_tokens)

/-- Written from the claim's words for simple tiered pricing: walk the tiers,
consume up to the tier's capacity from the remaining prompt and completion
counts independently at the tier's rates, until tiers are exhausted.  The
capacity notion is a parameter so that the claim's reading and the
implementation's truthiness reading can both be expressed. -/
def specTieredWalk (size : PriceTier → Option ℤ) :
    List PriceTier → ℤ → ℤ → ℚ × ℚ
  | [], _, _ => (0, 0)
  | t :: ts, rp, rc =>
    let pin := max 0 (minSize rp (size t))
    let cin := max 0 (minSize rc (size t))
    let rest := specTieredWalk size ts (rp - pin) (rc - cin)
    ((pin : ℚ) / 1000000 * t.input_price + rest.1,
     (cin : ℚ) / 1000000 * t.output_price + rest.2)

/-- The claim's description of simple tiered pricing, verbatim reading:
sorted walk with capacity `tier_max - tier_min` whenever a max is declared. -/
def claimTieredCost (pricing : ModelPricing) (p c : ℤ) : ℚ × ℚ × ℚ :=
  let r := specTieredWalk claimTierSize (sortTiers pricing.tiers) p c
  (r.1, r.2, r.1 + r.2)

/-- The amended reading of the claim: identical walk, except that a declared
max of `0` is treated as "no declared max" (unbounded), matching the Python
truthiness test in the implementation. -/
def amendedTieredCost (pricing : ModelPricing) (p c : ℤ) : ℚ × ℚ × ℚ :=
  let r := specTieredWalk pyTierSize (sortTiers pricing.tiers) p c
  (r.1, r.2, r.1 + r.2)

/-! ### Billing lemmas -/

lemma minSize_le (rp : ℤ) (size : Option ℤ) : minSize rp size ≤ rp := by
  cases size with
  | none => simp [minSize]
  | some s => simp [minSize]

lemma minSize_zero_nonpos (size : Option ℤ) : minSize 0 size ≤ 0 := by
  simpa using minSize_le 0 size

lemma specTieredWalk_zero (size : PriceTier → Option ℤ) (ts : List PriceTier) :
    specTieredWalk size ts 0 0 = (0, 0) := by
  induction ts with
  | nil => simp [specTieredWalk]
  | cons t ts ih =>
    have hp : max 0 (minSize 0 (size t)) = 0 :=
      max_eq_left (minSize_zero_nonpos (size t))
    simp [specTieredWalk, hp, ih]

lemma tieredWalk_eq_spec (ts : List PriceTier) :
    ∀ (rp rc : ℤ) (ic oc : ℚ), 0 ≤ rp → 0 ≤ rc →
      tieredWalk ts rp rc ic oc =
        (ic + (specTieredWalk pyTierSize ts rp rc).1,
         oc + (specTieredWalk pyTierSize ts rp rc).2) := by
  induction ts with
  | nil => intro rp rc ic oc _ _; simp [tieredWalk, specTieredWalk]
  | cons t ts ih =>
    intro rp rc ic oc hrp hrc
    by_cases hstop : rp ≤ 0 ∧ rc ≤ 0
    · have hrp0 : rp = 0 := le_antisymm hstop.1 hrp
      have hrc0 : rc = 0 := le_antisymm hstop.2 hrc
      subst hrp0; subst hrc0
      have hz : specTieredWalk pyTierSize (t :: ts) 0 0 = (0, 0) :=
        specTieredWalk_zero pyTierSize (t :: ts)
      simp [tieredWalk, hz]
    · have hpin_le := minSize_le rp (pyTierSize t)
      have hcin_le := minSize_le rc (pyTierSize t)
      set pin := minSize rp (pyTierSize t) with hpin
      set cin := minSize rc (pyTierSize t) with hcin
      by_cases hp : 0 < pin <;> by_cases hc : 0 < cin
      · have hmaxp : max 0 pin = pin := max_eq_right hp.le
        have hmaxc : max 0 cin = cin := max_eq_right hc.le
        have := ih (rp - pin) (rc - cin)
          (ic + (pin : ℚ) / 1000000 * t.input_price)
          (oc + (cin : ℚ) / 1000000 * t.output_price)
          (by omega) (by omega)
        simp only [tieredWalk, if_neg hstop, ← hpin, ← hcin, if_pos hp, if_pos hc,
          specTieredWalk, hmaxp, hmaxc, this, Prod.mk.injEq]
        constructor <;> ring
      · have hmaxp : max 0 pin = pin := max_eq_right hp.le
        have hmaxc : max 0 cin = 0 := max_eq_left (not_lt.mp hc)
        have := ih (rp - pin) rc
          (ic + (pin : ℚ) / 1000000 * t.input_price) oc (by omega) hrc
        simp only [tieredWalk, if_neg hstop, ← hpin, ← hcin, if_pos hp, if_neg hc,
          specTieredWalk, hmaxp, hmaxc, sub_zero, this, Prod.mk.injEq]
        constructor <;> push_cast <;> ring
      · have hmaxp : max 0 pin = 0 := max_eq_left (not_lt.mp hp)
        have hmaxc : max 0 cin = cin := max_eq_right hc.le
        have := ih rp (rc - cin)
          ic (oc + (cin : ℚ) / 1000000 * t.output_price) hrp (by omega)
        simp only [tieredWalk, if_neg hstop, ← hpin, ← hcin, if_neg hp, if_pos hc,
          specTieredWalk, hmaxp, hmaxc, sub_zero, this, Prod.mk.injEq]
        constructor <;> push_cast <;> ring
      · have hmaxp : max 0 pin = 0 := max_eq_left (not_lt.mp hp)
        have hmaxc : max 0 cin = 0 := max_eq_left (not_lt.mp hc)
        have := ih rp rc ic oc hrp hrc
        simp only [tieredWalk, if_neg hstop, ← hpin, ← hcin, if_neg hp, if_neg hc,
          specTieredWalk, hmaxp, hmaxc, sub_zero, this, Prod.mk.injEq]
        constructor <;> push_cast <;> ring

lemma complexTierMatch_eq_spec (t : ComplexPriceTier) (p c : ℤ) :
    complexTierMatch t p c = specComplexMatch t p c := by
  rcases t with ⟨imin, imax, omin, omax, ip, op⟩
  cases imax <;> cases omin <;> cases omax <;>
    simp [complexTierMatch, specComplexMatch, Option.all, ge_iff_le, Bool.and_assoc]

lemma findComplexTier_eq_find? (ts : List ComplexPriceTier) (p c : ℤ) :
    findComplexTier ts p c = ts.find? (fun t => specComplexMatch t p c) := by
  induction ts with
  | nil => rfl
  | cons t ts ih =>
    simp only [findComplexTier, List.find?, complexTierMatch_eq_spec]
    by_cases h : specComplexMatch t p c = true
    · simp [h]
    · simp [Bool.eq_false_iff.mpr h, ih]

/-! ### Example pricing policies used to instantiate the billing claims -/

/-- A fixed-price policy with the free-allowance figures from the spec's
round-trip example. -/
def exPricingC9 : ModelPricing :=
  { vendor := "OpenAI", model := "gpt-4o", pricing_type := .fixed,
    input_price_per_million := 5 / 2, output_price_per_million := 10,
    free_input_tokens := 500000 }

/-- A complex-tiered policy whose tiers cover only `input <= 32000`, with a
distinct last tier, as in the spec's fallback example. -/
def exPricingC1 : ModelPricing :=
  { vendor := "Doubao", model := "doubao-pro", pricing_type := .tiered_complex,
    complex_tiers :=
      [ { input_min := 0, input_max := some 32000, input_price := 1, output_price := 2 },
        { input_min := 0, input_max := some 32000, input_price := 3, output_price := 4 } ] }

/-- The simple tiered policy from the spec's example:
`[0–1000: 1/M in, 2/M out]`, `[1000–∞: 0.5/M in, 1/M out]`. -/
def exPricingC2 : ModelPricing :=
  { vendor := "V", model := "M", pricing_type := .tiered,
    tiers :=
      [ { min_tokens := 0, max_tokens := some 1000, input_price := 1, output_price := 2 },
        { min_tokens := 1000, max_tokens := none, input_price := 1 / 2, output_price := 1 } ] }

/-- A degenerate tiered policy with a declared `max_tokens` of `0`: Python's
truthiness test makes the implementation treat it as unbounded. -/
def exPricingC2bad : ModelPricing :=
  { vendor := "V", model := "M0", pricing_type := .tiered,
    tiers := [ { min_tokens := 0, max_tokens := some 0, input_price := 7, output_price := 0 } ] }

/-- A tiered policy whose two tiers share `min_tokens = 0`: the stable sort
must keep their declaration order, so the first declared tier (max 1000,
$1/M) is consumed before the second (max 500, $2/M). -/
def exPricingC2tie : ModelPricing :=
  { vendor := "V", model := "Mtie", pricing_type := .tiered,
    tiers :=
      [ { min_tokens := 0, max_tokens := some 1000, input_price := 1, output_price := 0 },
        { min_tokens := 0, max_tokens := some 500, input_price := 2, output_price := 0 } ] }

/-- C9: for every Fixed pricing policy, `calculate_cost` charges
`max(0, tokens - free_allowance)` billable tokens per stream at
`billable / 1_000_000 * rate`; with `prompt_tokens = 2_000_000`,
`completion_tokens = 1_000_000`, `free_input_tokens = 500_000`, input rate
2.50/M and output rate 10/M it returns input cost 3.75, output cost 10.00,
total 13.75. -/
theorem C9_fixed_cost :
    (∀ (pricing : ModelPricing) (p c : ℤ), pricing.pricing_type = PricingType.fixed →
      calculate_cost (some pricing) p c =
        (((max 0 (p - pricing.free_input_tokens) : ℤ) : ℚ) / 1000000 *
            pricing.input_price_per_million,
         ((max 0 (c - pricing.free_output_tokens) : ℤ) : ℚ) / 1000000 *
            pricing.output_price_per_million,
         ((max 0 (p - pricing.free_input_tokens) : ℤ) : ℚ) / 1000000 *
            pricing.input_price_per_million +
           ((max 0 (c - pricing.free_output_tokens) : ℤ) : ℚ) / 1000000 *
            pricing.output_price_per_million)) ∧
    calculate_cost (some exPricingC9) 2000000 1000000 = (15 / 4, 10, 55 / 4) := by
  constructor
  · intro pricing p c hpt
    simp [calculate_cost, hpt, calculate_fixed_cost]
  · norm_num [calculate_cost, exPricingC9, calculate_fixed_cost]

/-- Concrete instantiation of the universally quantified part of `C9_fixed_cost`
on the spec's example policy. -/
theorem C9_fixed_cost_witness :
    exPricingC9.pricing_type = PricingType.fixed ∧
    calculate_cost (some exPricingC9) 2000000 1000000 =
      (((max 0 ((2000000 : ℤ) - exPricingC9.free_input_tokens) : ℤ) : ℚ) / 1000000 *
          exPricingC9.input_price_per_million,
       ((max 0 ((1000000 : ℤ) - exPricingC9.free_output_tokens) : ℤ) : ℚ) / 1000000 *
          exPricingC9.output_price_per_million,
       ((max 0 ((2000000 : ℤ) - exPricingC9.free_input_tokens) : ℤ) : ℚ) / 1000000 *
          exPricingC9.input_price_per_million +
         ((max 0 ((1000000 : ℤ) - exPricingC9.free_output_tokens) : ℤ) : ℚ) / 1000000 *
          exPricingC9.output_price_per_million) :=
  ⟨rfl, C9_fixed_cost.1 exPricingC9 2000000 1000000 rfl⟩

/-- C1: for every TieredComplex policy with a non-empty tier list,
`calculate_cost` selects the first tier (in declaration order) whose input
bounds contain `prompt_tokens` and whose optional output bounds contain
`completion_tokens`, falling back to the last declared tier when none
matches, and applies that tier's per-million rates flat to the entire token
counts; in particular, with tiers covering only `input <= 32000`, a call
with `prompt_tokens = 50000` resolves to the last declared tier's flat
rates. -/
theorem C1_tiered_complex_cost :
    (∀ (pricing : ModelPricing) (p c : ℤ),
      pricing.pricing_type = PricingType.tiered_complex →
      pricing.complex_tiers ≠ [] →
      ∃ t : ComplexPriceTier,
        specSelectComplexTier pricing.complex_tiers p c = some t ∧
        calculate_cost (some pricing) p c = complexFlatCost t p c) ∧
    calculate_cost (some exPricingC1) 50000 1000 = (3 / 20, 1 / 250, 77 / 500) := by
  constructor
  · intro pricing p c hpt hne
    have hni : pricing.complex_tiers.isEmpty = false := by
      simpa [List.isEmpty_iff] using hne
    simp only [calculate_cost, hpt, calculate_complex_tiered_cost, hni,
      Bool.false_eq_true, if_false, findComplexTier_eq_find?]
    cases hfind : pricing.complex_tiers.find? (fun t => specComplexMatch t p c) with
    | some t =>
      exact ⟨t, by simp [specSelectComplexTier, hfind], rfl⟩
    | none =>
      have hsome : pricing.complex_tiers.getLast?.isSome := by
        rw [List.getLast?_isSome]; exact hne
      obtain ⟨y, hy⟩ := Option.isSome_iff_exists.mp hsome
      refine ⟨y, by simp [specSelectComplexTier, hfind, hy], ?_⟩
      simp [List.getLastD_eq_getLast?, hy]
  · norm_num [calculate_cost, exPricingC1, calculate_complex_tiered_cost, findComplexTier,
      complexTierMatch, complexFlatCost]

/-- Concrete instantiation of the universally quantified part of
`C1_tiered_complex_cost` on the spec's fallback example: no tier matches
`prompt_tokens = 50000`, so the last declared tier is selected. -/
theorem C1_tiered_complex_cost_witness :
    exPricingC1.pricing_type = PricingType.tiered_complex ∧
    exPricingC1.complex_tiers ≠ [] ∧
    ∃ t : ComplexPriceTier,
      specSelectComplexTier exPricingC1.complex_tiers 50000 1000 = some t ∧
      calculate_cost (some exPricingC1) 50000 1000 = complexFlatCost t 50000 1000 :=
  ⟨rfl, by decide, C1_tiered_complex_cost.1 exPricingC1 50000 1000 rfl (by decide)⟩

/-- C2 counterexample: on a tiered policy whose single tier declares
`max_tokens = 0`, the claim's walk ("consume up to `tier_max - tier_min`
tokens per tier; a tier with *no declared max* consumes all remaining")
yields zero cost for `prompt_tokens = 100`, but the implementation treats
the falsy declared max of `0` as unbounded and bills all 100 tokens. -/
theorem C2_tiered_cost_counterexample :
    calculate_cost (some exPricingC2bad) 100 0 = (7 / 10000, 0, 7 / 10000) ∧
    claimTieredCost exPricingC2bad 100 0 = (0, 0, 0) ∧
    calculate_cost (some exPricingC2bad) 100 0 ≠ claimTieredCost exPricingC2bad 100 0 := by
  have h1 : calculate_cost (some exPricingC2bad) 100 0 = (7 / 10000, 0, 7 / 10000) := by
    norm_num [calculate_cost, exPricingC2bad, calculate_tiered_cost, tieredWalk, sortTiers,
      insertTier, pyTierSize, minSize]
  have h2 : claimTieredCost exPricingC2bad 100 0 = (0, 0, 0) := by
    norm_num [claimTieredCost, exPricingC2bad, specTieredWalk, claimTierSize, sortTiers,
      insertTier, minSize]
  refine ⟨h1, h2, ?_⟩
  rw [h1, h2]
  intro h
  exact absurd (congrArg (fun r => r.1) h) (by norm_num)

/-- C2 (amended): for every Tiered policy and non-negative token counts,
`calculate_cost` walks the tiers sorted by `min_tokens` ascending, consuming
up to the tier's capacity from the remaining prompt and completion counts
independently at that tier's rates; a tier with no declared max — or with a
declared max of `0`, which Python's truthiness test treats the same way —
consumes all remaining tokens.  With tiers `[0–1000: 1/M in]`,
`[1000–∞: 0.5/M in]` and `prompt_tokens = 1500`, the input cost is
`1000/1e6*1 + 500/1e6*0.5 = 1/800`; the sort is stable, so two tiers that
share `min_tokens = 0` are walked in declaration order — with
`[0–1000: 1/M]` declared before `[0–500: 2/M]` and `prompt_tokens = 600`,
the input cost is `600/1e6*1 = 3/5000`. -/
theorem C2_tiered_cost_amended :
    (∀ (pricing : ModelPricing) (p c : ℤ), pricing.pricing_type = PricingType.tiered →
      0 ≤ p → 0 ≤ c →
      calculate_cost (some pricing) p c = amendedTieredCost pricing p c) ∧
    calculate_cost (some exPricingC2) 1500 0 = (1 / 800, 0, 1 / 800) ∧
    calculate_cost (some exPricingC2tie) 600 0 = (3 / 5000, 0, 3 / 5000) := by
  refine ⟨?_, ?_, ?_⟩
  · intro pricing p c hpt hp hc
    have h := tieredWalk_eq_spec (sortTiers pricing.tiers) p c 0 0 hp hc
    simp [calculate_cost, hpt, calculate_tiered_cost, amendedTieredCost, h]
  · norm_num [calculate_cost, exPricingC2, calculate_tiered_cost, tieredWalk, sortTiers,
      insertTier, pyTierSize, minSize]
  · norm_num [calculate_cost, exPricingC2tie, calculate_tiered_cost, tieredWalk, sortTiers,
      insertTier, pyTierSize, minSize]

/-- Concrete instantiation of the universally quantified part of
`C2_tiered_cost_amended` on the spec's two-tier example. -/
theorem C2_tiered_cost_amended_witness :
    exPricingC2.pricing_type = PricingType.tiered ∧ (0 : ℤ) ≤ 1500 ∧ (0 : ℤ) ≤ 0 ∧
    calculate_cost (some exPricingC2) 1500 0 = amendedTieredCost exPricingC2 1500 0 :=
  ⟨rfl, by decide, by decide,
    C2_tiered_cost_amended.1 exPricingC2 1500 0 rfl (by decide) (by decide)⟩

/-! ## Action interpreter (`phone_agent/agent/actions.py`) -/

/-- `ActionType` from `agent/actions.py`. -/
inductive ActionType where
  | tap | swipe | drag | typeText | tapAndType | launch | keyPress | back | home
  | wait | longPress | doubleTap | finish | pause
  deriving DecidableEq

/-- `ActionType(action_type_str)`: Python `Enum` lookup by value over the
exact wire strings (a `ValueError` is modelled by `none`). -/
def actionTypeOfString (s : String) : Option ActionType :=
  match s with
  | "Tap" => some .tap
  | "Swipe" => some .swipe
  | "Drag" => some .drag
  | "Type" => some .typeText
  | "TapAndType" => some .tapAndType
  | "Launch" => some .launch
  | "KeyPress" => some .keyPress
  | "Back" => some .back
  | "Home" => some .home
  | "Wait" => some .wait
  | "Long Press" => some .longPress
  | "Double Tap" => some .doubleTap
  | "finish" => some .finish
  | "pause" => some .pause
  | _ => none

/-- `ActionType(x)` on an arbitrary value: only strings can match an enum
value; any other type raises `ValueError` (modelled by `none`). -/
def actionTypeValue (j : Json) : Option ActionType :=
  match j with
  | .str s => actionTypeOfString s
  | _ => none

/-- `ActionResult` dataclass from `agent/actions.py`. -/
structure ActionResult where
  success : Bool
  should_finish : Bool
  message : Option String := none
  deriving DecidableEq

/-- One concrete device invocation issued by a handler (the argument values
Python passes to the `ADBDevice` methods). -/
inductive DeviceCall where
  | tap (x y : ℤ)
  | swipe4 (x1 y1 x2 y2 : ℤ)
  | swipe5 (x1 y1 x2 y2 : ℤ) (duration : Json)
  | swipeUp
  | swipeDown
  | swipeLeft
  | swipeRight
  | longPress (x y : ℤ) (duration : Json)
  | doubleTap (x y : ℤ)
  | inputTextAdbime (text : Json)
  | inputText (text : Json)
  | pressKey (keycode : ℤ)
  | pressBack
  | pressHome
  | launchApp (package : Json)
  | shell (cmd : String)

/-- The device capability interface consumed by the handlers: a screen size,
a boolean outcome for every call, and the text output of `shell`. -/
structure Device where
  screen_width : ℤ
  screen_height : ℤ
  respond : DeviceCall → Bool
  shellOut : String → String

/-- Python `params.get(k, default)`: `AttributeError` when `params` is not a
dict. -/
def pyGet (params : Json) (k : String) (dflt : Json) : Except String Json :=
  match params with
  | .obj m => .ok (dictGetD m k dflt)
  | _ => .error "AttributeError: get"

/-- Python `x[i]` for the indexings the handlers perform: array entry, string
character, `IndexError` past the end, `TypeError` on non-subscriptables. -/
def pySub (j : Json) (i : ℕ) : Except String Json :=
  match j with
  | .arr l =>
    match l[i]? with
    | some x => .ok x
    | none => .error "IndexError"
  | .str s =>
    match s.data[i]? with
    | some ch => .ok (.str (String.mk [ch]))
    | none => .error "IndexError"
  | _ => .error "TypeError: not subscriptable"

/-- Numeric coercion performed by Python arithmetic on a JSON value
(booleans are ints in Python; anything else raises `TypeError`). -/
def asNum : Json → Except String ℚ
  | .num q => .ok q
  | .bool b => .ok (if b then 1 else 0)
  | _ => .error "TypeError: unsupported operand"

/-- Python `len(x)` as used by `_handle_swipe`. -/
def pyLen : Json → Except String ℤ
  | .arr l => .ok l.length
  | .str s => .ok s.length
  | .obj m => .ok m.length
  | _ => .error "TypeError: len"

/-- `ActionHandler._get_coords`: `x = int(element[0] / 1000 * width)`,
`y = int(element[1] / 1000 * height)`. -/
def get_coords (d : Device) (element : Json) : Except String (ℤ × ℤ) := do
  let e0 ← pySub element 0
  let x0 ← asNum e0
  let e1 ← pySub element 1
  let y0 ← asNum e1
  pure (pyInt (x0 / 1000 * (d.screen_width : ℚ)), pyInt (y0 / 1000 * (d.screen_height : ℚ)))

/-- `ActionHandler._handle_tap`. -/
def handle_tap (d : Device) (params : Json) :
    Except String (ActionResult × List DeviceCall) := do
  let element ← pyGet params "element" (.arr [.num 500, .num 500])
  let xy ← get_coords d element
  let lp ← pyGet params "long_press" (.bool false)
  if truthy lp then
    let duration ← pyGet params "duration" (.num 1000)
    let c := DeviceCall.longPress xy.1 xy.2 duration
    if d.respond c then
      pure (⟨true, false, some ("长按 (" ++ toString xy.1 ++ ", " ++ toString xy.2 ++ ") "
        ++ pyStr duration ++ "ms")⟩, [c])
    else pure (⟨false, false, some "长按失败"⟩, [c])
  else
    let c := DeviceCall.tap xy.1 xy.2
    if d.respond c then
      pure (⟨true, false, some ("点击 (" ++ toString xy.1 ++ ", " ++ toString xy.2 ++ ")")⟩, [c])
    else pure (⟨false, false, some "点击失败"⟩, [c])

/-- `ActionHandler._handle_swipe`. -/
def handle_swipe (d : Device) (params : Json) :
    Except String (ActionResult × List DeviceCall) := do
  let element ← pyGet params "element" .null
  let direction ← pyGet params "direction" (.str "up")
  let useCoords ←
    if truthy element then do
      let n ← pyLen element
      pure (decide (4 ≤ n))
    else pure false
  if useCoords then
    let e0 ← pySub element 0
    let q0 ← asNum e0
    let e1 ← pySub element 1
    let q1 ← asNum e1
    let e2 ← pySub element 2
    let q2 ← asNum e2
    let e3 ← pySub element 3
    let q3 ← asNum e3
    let x1 := pyInt (q0 / 1000 * (d.screen_width : ℚ))
    let y1 := pyInt (q1 / 1000 * (d.screen_height : ℚ))
    let x2 := pyInt (q2 / 1000 * (d.screen_width : ℚ))
    let y2 := pyInt (q3 / 1000 * (d.screen_height : ℚ))
    let c := DeviceCall.swipe4 x1 y1 x2 y2
    if d.respond c then
      pure (⟨true, false, some ("滑动 (" ++ toString x1 ++ "," ++ toString y1 ++ ") -> ("
        ++ toString x2 ++ "," ++ toString y2 ++ ")")⟩, [c])
    else pure (⟨false, false, some "滑动失败"⟩, [c])
  else
    let sc : Bool × List DeviceCall :=
      if pyEqStr direction "up" then (d.respond .swipeUp, [.swipeUp])
      else if pyEqStr direction "down" then (d.respond .swipeDown, [.swipeDown])
      else if pyEqStr direction "left" then (d.respond .swipeLeft, [.swipeLeft])
      else if pyEqStr direction "right" then (d.respond .swipeRight, [.swipeRight])
      else (false, [])
    if sc.1 then pure (⟨true, false, some ("滑动 " ++ pyStr direction)⟩, sc.2)
    else pure (⟨false, false, some "滑动失败"⟩, sc.2)

/-- `ActionHandler._handle_drag`. -/
def handle_drag (d : Device) (params : Json) :
    Except String (ActionResult × List DeviceCall) := do
  let startEl ← pyGet params "start" (.arr [.num 500, .num 500])
  let endEl ← pyGet params "end" (.arr [.num 500, .num 500])
  let duration ← pyGet params "duration" (.num 1000)
  let xy1 ← get_coords d startEl
  let xy2 ← get_coords d endEl
  let c := DeviceCall.swipe5 xy1.1 xy1.2 xy2.1 xy2.2 duration
  if d.respond c then
    pure (⟨true, false, some ("拖拽 (" ++ toString xy1.1 ++ "," ++ toString xy1.2 ++ ") -> ("
      ++ toString xy2.1 ++ "," ++ toString xy2.2 ++ ") " ++ pyStr duration ++ "ms")⟩, [c])
  else pure (⟨false, false, some "拖拽失败"⟩, [c])

/-- `ActionHandler._handle_type` (the `text[:20]` excerpt in the success
message is rendered through `pyStr`). -/
def handle_type (d : Device) (params : Json) :
    Except String (ActionResult × List DeviceCall) := do
  let text ← pyGet params "text" (.str "")
  if ¬ truthy text then pure (⟨false, false, some "缺少输入文本"⟩, [])
  else
    let c1 := DeviceCall.inputTextAdbime text
    if d.respond c1 then
      pure (⟨true, false, some ("输入: " ++ (pyStr text).take 20 ++ "...")⟩, [c1])
    else
      let c2 := DeviceCall.inputText text
      if d.respond c2 then
        pure (⟨true, false, some ("输入: " ++ (pyStr text).take 20 ++ "...")⟩, [c1, c2])
      else pure (⟨false, false, some "输入失败"⟩, [c1, c2])

/-- `ActionHandler._handle_tap_and_type` (the click, the optional bounded
clear loop of 1 + 50 key presses, then the two-stage text input). -/
def handle_tap_and_type (d : Device) (params : Json) :
    Except String (ActionResult × List DeviceCall) := do
  let element ← pyGet params "element" (.arr [.num 500, .num 500])
  let text ← pyGet params "text" (.str "")
  let clear ← pyGet params "clear" (.bool false)
  if ¬ truthy text then pure (⟨false, false, some "缺少输入文本"⟩, [])
  else
    let xy ← get_coords d element
    let cTap := DeviceCall.tap xy.1 xy.2
    if ¬ d.respond cTap then pure (⟨false, false, some "点击输入框失败"⟩, [cTap])
    else
      let clearCalls : List DeviceCall :=
        if truthy clear then DeviceCall.pressKey 123 :: List.replicate 50 (DeviceCall.pressKey 67)
        else []
      let base := cTap :: clearCalls
      let c1 := DeviceCall.inputTextAdbime text
      let msg := "点击(" ++ toString xy.1 ++ "," ++ toString xy.2 ++ ")并输入: "
        ++ (pyStr text).take 20 ++ "..."
      if d.respond c1 then pure (⟨true, false, some msg⟩, base ++ [c1])
      else
        let c2 := DeviceCall.inputText text
        if d.respond c2 then pure (⟨true, false, some msg⟩, base ++ [c1, c2])
        else pure (⟨false, false, some "输入文本失败"⟩, base ++ [c1, c2])

/-- The static name→package table of `_find_package_by_name`. -/
def appMap : List (String × String) :=
  [("微信", "com.tencent.mm"), ("QQ", "com.tencent.mobileqq"), ("淘宝", "com.taobao.taobao"),
   ("京东", "com.jingdong.app.mall"), ("拼多多", "com.xunmeng.pinduoduo"),
   ("抖音", "com.ss.android.ugc.aweme"), ("快手", "com.smile.gifmaker"),
   ("美团", "com.sankuai.meituan"), ("饿了么", "com.ele.me"),
   ("支付宝", "com.eg.android.AlipayGphone"), ("高德地图", "com.autonavi.minimap"),
   ("百度地图", "com.baidu.BaiduMap"), ("滴滴", "com.sdu.didi.psnger"),
   ("网易云音乐", "com.netease.cloudmusic"), ("QQ音乐", "com.tencent.qqmusic"),
   ("爱奇艺", "com.qiyi.video"), ("腾讯视频", "com.tencent.qqlive"),
   ("优酷", "com.youku.phone"), ("哔哩哔哩", "tv.danmaku.bili"), ("B站", "tv.danmaku.bili"),
   ("小红书", "com.xingin.xhs"), ("知乎", "com.zhihu.android"), ("微博", "com.sina.weibo"),
   ("今日头条", "com.ss.android.article.news"), ("携程", "ctrip.android.view"),
   ("飞猪", "com.taobao.trip"), ("12306", "com.MobileTicket"), ("设置", "com.android.settings"),
   ("相机", "com.android.camera"), ("相册", "com.android.gallery3d"),
   ("日历", "com.android.calendar"), ("时钟", "com.android.deskclock"),
   ("计算器", "com.android.calculator2"), ("文件管理", "com.android.fileexplorer"),
   ("应用商店", "com.android.vending")]

/-- The keyword-hint table of `_extract_keywords`. -/
def keywordMap : List (String × List String) :=
  [("剑网3", ["jx3", "jianwang", "seasun"]),
   ("剑网3无界", ["jx3", "jianwang", "seasun", "wujie"]),
   ("王者荣耀", ["sgame", "honor", "kings"]),
   ("原神", ["genshin", "mihoyo"]),
   ("崩坏", ["honkai", "mihoyo", "bh3"]),
   ("阴阳师", ["onmyoji", "netease"]),
   ("明日方舟", ["arknights", "hypergryph"]),
   ("和平精英", ["pubg", "tencent", "peacekeeper"]),
   ("英雄联盟", ["lol", "league", "tencent"]),
   ("穿越火线", ["crossfire", "cf"])]

/-- Python `needle in hay` on strings. -/
def strContains (hay needle : String) : Bool :=
  if needle = "" then true else (hay.splitOn needle).length != 1

/-- `ActionHandler._extract_keywords`. -/
def extract_keywords (app_name : String) : List String :=
  app_name :: (keywordMap.filter (fun kv => strContains app_name kv.1)).flatMap (·.2)

/-- `ActionHandler._search_package_on_device` (the `pm list packages -3`
shell query, `package:`-line parsing, and lowercase keyword matching). -/
def search_package_on_device (d : Device) (app_name : String) :
    Option String × List DeviceCall :=
  let cmd := "pm list packages -3"
  let output := d.shellOut cmd
  let packages := ((output.trim.splitOn "\n").filter (fun line => line.startsWith "package:")).map
    (fun line => (line.replace "package:" "").trim)
  let keywords := extract_keywords app_name
  (packages.find? (fun pkg => keywords.any (fun kw => strContains pkg.toLower kw.toLower)),
   [.shell cmd])

/-- `ActionHandler._find_package_by_name`: static table first, then the
on-device search. -/
def find_package_by_name (d : Device) (app_name : String) :
    Option String × List DeviceCall :=
  match appMap.find? (fun kv => kv.1 == app_name) with
  | some kv => (some kv.2, [])
  | none => search_package_on_device d app_name

/-- The tail of `_handle_launch` after `app_name` resolution: the
`if not package` guard, the `launch_app` call and the display string. -/
def launchTail (d : Device) (app_name package : Json) (tr : List DeviceCall) :
    Except String (ActionResult × List DeviceCall) :=
  if ¬ truthy package then pure (⟨false, false, some "缺少 app_name 或 package 参数"⟩, tr)
  else
    let c := DeviceCall.launchApp package
    let display :=
      if truthy app_name then pyStr app_name ++ " (" ++ pyStr package ++ ")" else pyStr package
    if d.respond c then pure (⟨true, false, some ("启动: " ++ display)⟩, tr ++ [c])
    else pure (⟨false, false, some ("启动失败: " ++ display)⟩, tr ++ [c])

/-- `ActionHandler._handle_launch`. -/
def handle_launch (d : Device) (params : Json) :
    Except String (ActionResult × List DeviceCall) := do
  let app_name ← pyGet params "app_name" (.str "")
  let package ← pyGet params "package" (.str "")
  if truthy app_name then
    match app_name with
    | .str s =>
      match find_package_by_name d s with
      | (none, tr) => pure (⟨false, false, some ("找不到应用: " ++ s)⟩, tr)
      | (some p, tr) => launchTail d app_name (.str p) tr
    | _ => .error "TypeError: keyword matching on non-string app_name"
  else launchTail d app_name package []

/-- `ActionHandler._handle_key_press`. -/
def handle_key_press (d : Device) (params : Json) :
    Except String (ActionResult × List DeviceCall) := do
  let key ← pyGet params "key" (.str "")
  if ¬ truthy key then pure (⟨false, false, some "缺少 key 参数"⟩, [])
  else
    match key with
    | .str s =>
      let keycode : Option ℤ :=
        match s.toLower with
        | "enter" => some 66
        | "delete" => some 67
        | "volume_up" => some 24
        | "volume_down" => some 25
        | "app_switch" => some 187
        | "snapshot" => some 120
        | _ => none
      match keycode with
      | none => pure (⟨false, false, some ("未知按键: " ++ s)⟩, [])
      | some k =>
        let c := DeviceCall.pressKey k
        if d.respond c then pure (⟨true, false, some ("按键: " ++ s)⟩, [c])
        else pure (⟨false, false, some ("按键失败: " ++ s)⟩, [c])
    | _ => .error "AttributeError: lower"

/-- `ActionHandler._handle_back`. -/
def handle_back (d : Device) (_params : Json) :
    Except String (ActionResult × List DeviceCall) :=
  if d.respond .pressBack then pure (⟨true, false, some "返回"⟩, [.pressBack])
  else pure (⟨false, false, some "返回失败"⟩, [.pressBack])

/-- `ActionHandler._handle_home`. -/
def handle_home (d : Device) (_params : Json) :
    Except String (ActionResult × List DeviceCall) :=
  if d.respond .pressHome then pure (⟨true, false, some "回到桌面"⟩, [.pressHome])
  else pure (⟨false, false, some "回到桌面失败"⟩, [.pressHome])

/-- `ActionHandler._handle_wait` (`seconds` clamped to `[1, 30]`; the sleep
itself is not a device call). -/
def handle_wait (_d : Device) (params : Json) :
    Except String (ActionResult × List DeviceCall) := do
  let seconds ← pyGet params "seconds" (.num 5)
  let q ← asNum seconds
  let s := max 1 (min 30 q)
  pure (⟨true, false, some ("等待 " ++ pyStr (.num s) ++ " 秒")⟩, [])

/-- `ActionHandler._handle_long_press`. -/
def handle_long_press (d : Device) (params : Json) :
    Except String (ActionResult × List DeviceCall) := do
  let element ← pyGet params "element" (.arr [.num 500, .num 500])
  let duration ← pyGet params "duration" (.num 1000)
  let xy ← get_coords d element
  let c := DeviceCall.longPress xy.1 xy.2 duration
  if d.respond c then
    pure (⟨true, false, some ("长按 (" ++ toString xy.1 ++ ", " ++ toString xy.2 ++ ")")⟩, [c])
  else pure (⟨false, false, some "长按失败"⟩, [c])

/-- `ActionHandler._handle_double_tap`. -/
def handle_double_tap (d : Device) (params : Json) :
    Except String (ActionResult × List DeviceCall) := do
  let element ← pyGet params "element" (.arr [.num 500, .num 500])
  let xy ← get_coords d element
  let c := DeviceCall.doubleTap xy.1 xy.2
  if d.respond c then
    pure (⟨true, false, some ("双击 (" ++ toString xy.1 ++ ", " ++ toString xy.2 ++ ")")⟩, [c])
  else pure (⟨false, false, some "双击失败"⟩, [c])

/-- `ActionHandler._handle_finish`. -/
def handle_finish (_d : Device) (params : Json) :
    Except String (ActionResult × List DeviceCall) := do
  let message ← pyGet params "message" (.str "任务完成")
  pure (⟨true, true, some (pyStr message)⟩, [])

/-- `ActionHandler._handle_pause`. -/
def handle_pause (_d : Device) (params : Json) :
    Except String (ActionResult × List DeviceCall) := do
  let message ← pyGet params "message" (.str "等待用户操作")
  pure (⟨true, true, some ("[暂停] " ++ pyStr message)⟩, [])

/-- The `self._handlers` registry built in `ActionHandler.__init__`: every
`ActionType` has a registered handler, so `self._handlers.get` never misses. -/
def handlerFor (a : ActionType) :
    Option (Device → Json → Except String (ActionResult × List DeviceCall)) :=
  match a with
  | .tap => some handle_tap
  | .swipe => some handle_swipe
  | .drag => some handle_drag
  | .typeText => some handle_type
  | .tapAndType => some handle_tap_and_type
  | .launch => some handle_launch
  | .keyPress => some handle_key_press
  | .back => some handle_back
  | .home => some handle_home
  | .wait => some handle_wait
  | .longPress => some handle_long_press
  | .doubleTap => some handle_double_tap
  | .finish => some handle_finish
  | .pause => some handle_pause

/-- `ActionHandler.execute`: `parsed` is the outcome of
`json.loads(action_json)` (`none` models a `json.JSONDecodeError`).  Only
that decode error is caught; calling `.get` on a non-dict JSON value raises
an uncaught `AttributeError`, modelled by `.error`. -/
def execute (d : Device) (action_json : String) (parsed : Option Json) :
    Except String (ActionResult × List DeviceCall) :=
  match parsed with
  | none => pure (⟨false, false, some ("无效的动作 JSON: " ++ action_json.take 100)⟩, [])
  | some a =>
    match a with
    | .obj m =>
      let action_type_str := dictGetD m "action" .null
      if ¬ truthy action_type_str then pure (⟨false, false, some "缺少 action 字段"⟩, [])
      else
        match actionTypeValue action_type_str with
        | none =>
          pure (⟨false, false, some ("未知动作类型: " ++ pyStr action_type_str)⟩, [])
        | some act =>
          match handlerFor act with
          | none => pure (⟨false, false, some "未实现的动作"⟩, [])
          | some h => h d (dictGetD m "params" (.obj []))
    | _ => .error "AttributeError: get on non-dict JSON value"

/-! ### Action-interpreter lemmas and claims -/

lemma except_pure_eq {α : Type} (x : α) : (pure x : Except String α) = Except.ok x := rfl

lemma except_bind_ok {α β : Type} (a : α) (f : α → Except String β) :
    (Except.ok a >>= f : Except String β) = f a := rfl

lemma string_append_ne_empty (s t : String) (hs : s ≠ "") : s ++ t ≠ "" := by
  intro h
  apply hs
  have hl := congrArg String.length h
  rw [String.length_append] at hl
  have h0 : s.length = 0 := by
    have : (("" : String)).length = 0 := rfl
    omega
  exact String.ext (List.length_eq_zero.mp h0)

lemma get_coords_num (d : Device) (x y : ℚ) :
    get_coords d (.arr [.num x, .num y]) =
      .ok (pyInt (x / 1000 * (d.screen_width : ℚ)), pyInt (y / 1000 * (d.screen_height : ℚ))) :=
  rfl

/-- A concrete 1080×2400 device on which every call succeeds. -/
def exDevice : Device :=
  { screen_width := 1080, screen_height := 2400,
    respond := fun _ => true, shellOut := fun _ => "" }

/-- C3 (amended): for every normalized pair in `[0,1000]²` and nonnegative
screen size, `_get_coords` produces `(trunc(x/1000*W), trunc(y/1000*H))` —
truncation via Python `int()`, not rounding — and the boundary values `0`
and `1000` map exactly to `0` and `W`/`H`. -/
theorem C3_coord_conversion_amended :
    (∀ (d : Device) (x y : ℤ), 0 ≤ x → x ≤ 1000 → 0 ≤ y → y ≤ 1000 →
      0 ≤ d.screen_width → 0 ≤ d.screen_height →
      get_coords d (.arr [.num (x : ℚ), .num (y : ℚ)]) =
        .ok (⌊(x * d.screen_width : ℚ) / 1000⌋, ⌊(y * d.screen_height : ℚ) / 1000⌋)) ∧
    (∀ d : Device, get_coords d (.arr [.num 0, .num 0]) = .ok (0, 0)) ∧
    (∀ d : Device, 0 ≤ d.screen_width → 0 ≤ d.screen_height →
      get_coords d (.arr [.num 1000, .num 1000]) = .ok (d.screen_width, d.screen_height)) := by
  refine ⟨?_, ?_, ?_⟩
  · intro d x y hx _ hy _ hw hh
    rw [get_coords_num]
    have hq1 : (0 : ℚ) ≤ (x : ℚ) / 1000 * (d.screen_width : ℚ) := by
      apply mul_nonneg
      · apply div_nonneg (by exact_mod_cast hx) (by norm_num)
      · exact_mod_cast hw
    have hq2 : (0 : ℚ) ≤ (y : ℚ) / 1000 * (d.screen_height : ℚ) := by
      apply mul_nonneg
      · apply div_nonneg (by exact_mod_cast hy) (by norm_num)
      · exact_mod_cast hh
    simp only [pyInt, if_pos hq1, if_pos hq2]
    have e1 : (x : ℚ) / 1000 * (d.screen_width : ℚ) = (x : ℚ) * (d.screen_width : ℚ) / 1000 := by
      ring
    have e2 : (y : ℚ) / 1000 * (d.screen_height : ℚ) = (y : ℚ) * (d.screen_height : ℚ) / 1000 := by
      ring
    rw [e1, e2]
  · intro d
    rw [get_coords_num]
    norm_num [pyInt]
  · intro d hw hh
    rw [get_coords_num]
    have e1 : (1000 : ℚ) / 1000 * (d.screen_width : ℚ) = (d.screen_width : ℚ) := by ring
    have e2 : (1000 : ℚ) / 1000 * (d.screen_height : ℚ) = (d.screen_height : ℚ) := by ring
    rw [e1, e2]
    have hq1 : (0 : ℚ) ≤ (d.screen_width : ℚ) := by exact_mod_cast hw
    have hq2 : (0 : ℚ) ≤ (d.screen_height : ℚ) := by exact_mod_cast hh
    simp only [pyInt, if_pos hq1, if_pos hq2, Int.floor_intCast]

/-- Concrete instantiation of `C3_coord_conversion_amended` on a 1080×2400
screen at the normalized point `(250, 250)` and at the boundaries. -/
theorem C3_coord_conversion_amended_witness :
    ((0 : ℤ) ≤ 250 ∧ (250 : ℤ) ≤ 1000 ∧ (0 : ℤ) ≤ exDevice.screen_width ∧
      (0 : ℤ) ≤ exDevice.screen_height) ∧
    get_coords exDevice (.arr [.num ((250 : ℤ) : ℚ), .num ((250 : ℤ) : ℚ)]) =
      .ok (⌊((250 : ℤ) * exDevice.screen_width : ℚ) / 1000⌋,
           ⌊((250 : ℤ) * exDevice.screen_height : ℚ) / 1000⌋) ∧
    get_coords exDevice (.arr [.num 0, .num 0]) = .ok (0, 0) ∧
    get_coords exDevice (.arr [.num 1000, .num 1000]) =
      .ok (exDevice.screen_width, exDevice.screen_height) :=
  ⟨⟨by decide, by decide, by decide, by decide⟩,
   C3_coord_conversion_amended.1 exDevice 250 250 (by decide) (by decide) (by decide) (by decide)
     (by decide) (by decide),
   C3_coord_conversion_amended.2.1 exDevice,
   C3_coord_conversion_amended.2.2 exDevice (by decide) (by decide)⟩

/-- C3 counterexample: on a 1080×2400 screen the normalized point
`(999, 999)` resolves to `(1078, 2397)` (truncation), while the claimed
rounding formula gives `(1079, 2398)`. -/
theorem C3_coord_conversion_counterexample :
    get_coords exDevice (.arr [.num 999, .num 999]) = .ok (1078, 2397) ∧
    round ((999 : ℚ) / 1000 * 1080) = 1079 ∧
    round ((999 : ℚ) / 1000 * 2400) = 2398 := by
  refine ⟨?_, ?_, ?_⟩
  · rw [get_coords_num]
    have e1 : (999 : ℚ) / 1000 * (exDevice.screen_width : ℚ) = 26973 / 25 := by
      norm_num [exDevice]
    have e2 : (999 : ℚ) / 1000 * (exDevice.screen_height : ℚ) = 11988 / 5 := by
      norm_num [exDevice]
    rw [e1, e2]
    norm_num [pyInt]
  · rw [round_eq]; norm_num
  · rw [round_eq]; norm_num

/-- C4 (amended): malformed JSON, a JSON *object* lacking (or with a falsy)
`action` field, and an unrecognized action kind each yield
`success=false, should_finish=false` with a non-empty diagnostic and an
empty device-call trace; every `ActionType` has a registered handler, so
the no-registered-handler branch is unreachable. -/
theorem C4_execute_error_paths_amended :
    (∀ (d : Device) (raw : String),
      ∃ msg, execute d raw none = Except.ok (⟨false, false, some msg⟩, []) ∧ msg ≠ "") ∧
    (∀ (d : Device) (raw : String) (m : List (String × Json)),
      truthy (dictGetD m "action" Json.null) = false →
      ∃ msg, execute d raw (some (.obj m)) = Except.ok (⟨false, false, some msg⟩, []) ∧
        msg ≠ "") ∧
    (∀ (d : Device) (raw : String) (m : List (String × Json)),
      truthy (dictGetD m "action" Json.null) = true →
      actionTypeValue (dictGetD m "action" Json.null) = none →
      ∃ msg, execute d raw (some (.obj m)) = Except.ok (⟨false, false, some msg⟩, []) ∧
        msg ≠ "") ∧
    (∀ act : ActionType, (handlerFor act).isSome) := by
  refine ⟨?_, ?_, ?_, ?_⟩
  · intro d raw
    exact ⟨_, rfl, string_append_ne_empty _ _ (by decide)⟩
  · intro d raw m htr
    refine ⟨"缺少 action 字段", ?_, by decide⟩
    simp [execute, htr, except_pure_eq]
  · intro d raw m htr hat
    refine ⟨"未知动作类型: " ++ pyStr (dictGetD m "action" Json.null), ?_,
      string_append_ne_empty _ _ (by decide)⟩
    simp [execute, htr, hat, except_pure_eq]
  · intro act
    cases act <;> rfl

/-- Concrete instantiation of `C4_execute_error_paths_amended`: a decode
failure, an empty object, and an unknown kind `"Fly"`. -/
theorem C4_execute_error_paths_amended_witness :
    (∃ msg, execute exDevice "oops" none = Except.ok (⟨false, false, some msg⟩, []) ∧
      msg ≠ "") ∧
    (∃ msg, execute exDevice "a" (some (.obj [])) =
      Except.ok (⟨false, false, some msg⟩, []) ∧ msg ≠ "") ∧
    (∃ msg, execute exDevice "a" (some (.obj [("action", Json.str "Fly")])) =
      Except.ok (⟨false, false, some msg⟩, []) ∧ msg ≠ "") ∧
    (handlerFor ActionType.tap).isSome :=
  ⟨C4_execute_error_paths_amended.1 exDevice "oops",
   C4_execute_error_paths_amended.2.1 exDevice "a" [] rfl,
   C4_execute_error_paths_amended.2.2.1 exDevice "a" [("action", Json.str "Fly")] rfl rfl,
   C4_execute_error_paths_amended.2.2.2 ActionType.tap⟩

/-- C4 counterexample: `"[1, 2]"` is valid JSON lacking an `action` field,
yet `execute` does not return a `success=false` result — the `.get` call on
the decoded list raises an uncaught `AttributeError` (only
`json.JSONDecodeError` is caught), so the error is not local and non-fatal. -/
theorem C4_execute_counterexample :
    execute exDevice "[1, 2]" (some (.arr [.num 1, .num 2])) =
      .error "AttributeError: get on non-dict JSON value" := rfl

/-- C10: a `Tap`, `Drag`, `Long Press`, or `Double Tap` directive whose
params omit the coordinate field(s) substitutes the normalized center
`[500, 500]` for each missing field and proceeds to invoke the device
operation at the resolved center pixel. -/
theorem C10_missing_element_defaults_to_center :
    (∀ (d : Device) (pm : List (String × Json)),
      dictRawGet pm "element" = none → dictRawGet pm "long_press" = none →
      (execute d "" (some (.obj [("action", Json.str "Tap"), ("params", Json.obj pm)]))).map
          Prod.snd =
        Except.ok [DeviceCall.tap (pyInt (500 / 1000 * (d.screen_width : ℚ)))
          (pyInt (500 / 1000 * (d.screen_height : ℚ)))]) ∧
    (∀ (d : Device) (pm : List (String × Json)),
      dictRawGet pm "start" = none → dictRawGet pm "end" = none →
      (execute d "" (some (.obj [("action", Json.str "Drag"), ("params", Json.obj pm)]))).map
          Prod.snd =
        Except.ok [DeviceCall.swipe5 (pyInt (500 / 1000 * (d.screen_width : ℚ)))
          (pyInt (500 / 1000 * (d.screen_height : ℚ)))
          (pyInt (500 / 1000 * (d.screen_width : ℚ)))
          (pyInt (500 / 1000 * (d.screen_height : ℚ)))
          (dictGetD pm "duration" (.num 1000))]) ∧
    (∀ (d : Device) (pm : List (String × Json)),
      dictRawGet pm "element" = none →
      (execute d ""
          (some (.obj [("action", Json.str "Long Press"), ("params", Json.obj pm)]))).map
          Prod.snd =
        Except.ok [DeviceCall.longPress (pyInt (500 / 1000 * (d.screen_width : ℚ)))
          (pyInt (500 / 1000 * (d.screen_height : ℚ)))
          (dictGetD pm "duration" (.num 1000))]) ∧
    (∀ (d : Device) (pm : List (String × Json)),
      dictRawGet pm "element" = none →
      (execute d ""
          (some (.obj [("action", Json.str "Double Tap"), ("params", Json.obj pm)]))).map
          Prod.snd =
        Except.ok [DeviceCall.doubleTap (pyInt (500 / 1000 * (d.screen_width : ℚ)))
          (pyInt (500 / 1000 * (d.screen_height : ℚ)))]) := by
  refine ⟨?_, ?_, ?_, ?_⟩
  · intro d pm hel hlp
    have hexec : execute d ""
        (some (.obj [("action", Json.str "Tap"), ("params", Json.obj pm)])) =
        handle_tap d (Json.obj pm) := rfl
    rw [hexec]
    simp only [handle_tap, pyGet, dictGetD, hel, hlp, Option.getD_none, except_bind_ok,
      get_coords_num, truthy, except_pure_eq]
    cases hr : d.respond (DeviceCall.tap (pyInt (500 / 1000 * (d.screen_width : ℚ)))
        (pyInt (500 / 1000 * (d.screen_height : ℚ)))) <;>
      simp [hr, Except.map]
  · intro d pm hs he
    have hexec : execute d ""
        (some (.obj [("action", Json.str "Drag"), ("params", Json.obj pm)])) =
        handle_drag d (Json.obj pm) := rfl
    rw [hexec]
    simp only [handle_drag, pyGet, dictGetD, hs, he, Option.getD_none, except_bind_ok,
      get_coords_num, except_pure_eq]
    cases hr : d.respond (DeviceCall.swipe5 (pyInt (500 / 1000 * (d.screen_width : ℚ)))
        (pyInt (500 / 1000 * (d.screen_height : ℚ)))
        (pyInt (500 / 1000 * (d.screen_width : ℚ)))
        (pyInt (500 / 1000 * (d.screen_height : ℚ)))
        ((dictRawGet pm "duration").getD (.num 1000))) <;>
      simp [hr, Except.map, dictGetD]
  · intro d pm hel
    have hexec : execute d ""
        (some (.obj [("action", Json.str "Long Press"), ("params", Json.obj pm)])) =
        handle_long_press d (Json.obj pm) := rfl
    rw [hexec]
    simp only [handle_long_press, pyGet, dictGetD, hel, Option.getD_none, except_bind_ok,
      get_coords_num, except_pure_eq]
    cases hr : d.respond (DeviceCall.longPress (pyInt (500 / 1000 * (d.screen_width : ℚ)))
        (pyInt (500 / 1000 * (d.screen_height : ℚ)))
        ((dictRawGet pm "duration").getD (.num 1000))) <;>
      simp [hr, Except.map, dictGetD]
  · intro d pm hel
    have hexec : execute d ""
        (some (.obj [("action", Json.str "Double Tap"), ("params", Json.obj pm)])) =
        handle_double_tap d (Json.obj pm) := rfl
    rw [hexec]
    simp only [handle_double_tap, pyGet, dictGetD, hel, Option.getD_none, except_bind_ok,
      get_coords_num, except_pure_eq]
    cases hr : d.respond (DeviceCall.doubleTap (pyInt (500 / 1000 * (d.screen_width : ℚ)))
        (pyInt (500 / 1000 * (d.screen_height : ℚ)))) <;>
      simp [hr, Except.map]

/-- Concrete instantiation of `C10_missing_element_defaults_to_center` with
empty params on the example device. -/
theorem C10_missing_element_defaults_to_center_witness :
    (execute exDevice "" (some (.obj [("action", Json.str "Tap"),
        ("params", Json.obj [])]))).map Prod.snd =
      Except.ok [DeviceCall.tap (pyInt (500 / 1000 * (exDevice.screen_width : ℚ)))
        (pyInt (500 / 1000 * (exDevice.screen_height : ℚ)))] ∧
    (execute exDevice "" (some (.obj [("action", Json.str "Drag"),
        ("params", Json.obj [])]))).map Prod.snd =
      Except.ok [DeviceCall.swipe5 (pyInt (500 / 1000 * (exDevice.screen_width : ℚ)))
        (pyInt (500 / 1000 * (exDevice.screen_height : ℚ)))
        (pyInt (500 / 1000 * (exDevice.screen_width : ℚ)))
        (pyInt (500 / 1000 * (exDevice.screen_height : ℚ)))
        (dictGetD [] "duration" (.num 1000))] ∧
    (execute exDevice "" (some (.obj [("action", Json.str "Long Press"),
        ("params", Json.obj [])]))).map Prod.snd =
      Except.ok [DeviceCall.longPress (pyInt (500 / 1000 * (exDevice.screen_width : ℚ)))
        (pyInt (500 / 1000 * (exDevice.screen_height : ℚ)))
        (dictGetD [] "duration" (.num 1000))] ∧
    (execute exDevice "" (some (.obj [("action", Json.str "Double Tap"),
        ("params", Json.obj [])]))).map Prod.snd =
      Except.ok [DeviceCall.doubleTap (pyInt (500 / 1000 * (exDevice.screen_width : ℚ)))
        (pyInt (500 / 1000 * (exDevice.screen_height : ℚ)))] :=
  ⟨C10_missing_element_defaults_to_center.1 exDevice [] rfl rfl,
   C10_missing_element_defaults_to_center.2.1 exDevice [] rfl rfl,
   C10_missing_element_defaults_to_center.2.2.1 exDevice [] rfl,
   C10_missing_element_defaults_to_center.2.2.2 exDevice [] rfl⟩

/-! ## Task-plan tracking (`phone_agent/agent/core.py`, `_execute_step`) -/

/-- `SubTask` pydantic model from `agent/core.py`. -/
structure SubTaskL where
  id : ℤ
  name : String
  status : String := "pending"
  deriving DecidableEq

/-- `TaskPlan` pydantic model.  `current_task_id` receives the raw parsed
JSON value on a `current_task_id` response (plain attribute assignment is
not validated by pydantic), so it is modelled as an optional JSON value;
plan initialization stores the first task's integer id. -/
structure TaskPlanL where
  tasks : List SubTaskL := []
  current_task_id : Option Json := none
  phase : String := "init"

/-- Pydantic lax coercion of a JSON value to an `int` field (exact numbers
and numeric strings; booleans and other types are rejected). -/
def pyToInt (j : Json) : Option ℤ :=
  match j with
  | .num q => if q.den = 1 then some q.num else none
  | .str s => s.toInt?
  | _ => none

/-- Pydantic `str` field coercion: only strings are accepted. -/
def pyToStr (j : Json) : Option String :=
  match j with
  | .str s => some s
  | _ => none

/-- `SubTask(id=t["id"], name=t["name"], status=t.get("status", "pending"))`;
`none` models a raised `KeyError`/`ValidationError`. -/
def parseSubTask (j : Json) : Option SubTaskL :=
  match j with
  | .obj m => do
    let idj ← dictRawGet m "id"
    let idv ← pyToInt idj
    let namej ← dictRawGet m "name"
    let namev ← pyToStr namej
    let statusv ← pyToStr (dictGetD m "status" (.str "pending"))
    some ⟨idv, namev, statusv⟩
  | _ => none

/-- The list comprehension over `parsed["tasks"]`; `none` models the first
raised exception. -/
def parseSubTasks : List Json → Option (List SubTaskL)
  | [] => some []
  | j :: js => do
    let t ← parseSubTask j
    let ts ← parseSubTasks js
    some (t :: ts)

/-- The `for task in ...: if task.id == x: task.status = s; break` loops of
`_execute_step`: only the first matching task is restamped. -/
def markFirst (tasks : List SubTaskL) (p : SubTaskL → Bool) (status : String) : List SubTaskL :=
  match tasks with
  | [] => []
  | t :: ts => if p t then { t with status := status } :: ts else t :: markFirst ts p status

/-- `parsed.get("phase") == "plan" and "tasks" in parsed`. -/
def planCond (m : List (String × Json)) : Bool :=
  pyEqStr (dictGetD m "phase" .null) "plan" && dictHas m "tasks"

/-- The task-plan update performed by `PhoneAgent._execute_step` on one
parsed model response (the `try` block handling `phase`/`tasks`,
`task_completed` and `current_task_id`).  An exception while building the
`SubTask` list aborts the rest of the `try` (as `except Exception: pass`
swallows it) but keeps the partial mutation of `phase`; `.get` on a
non-dict raises immediately, leaving the plan unchanged.  Iterating a
non-list `tasks` value raises unless it is an empty dict or empty string,
which iterate zero times. -/
def updateTaskPlan (plan : TaskPlanL) (parsed : Json) : TaskPlanL :=
  match parsed with
  | .obj m =>
    let afterPlan : Option TaskPlanL :=
      if planCond m then
        let planTasks : Option (List SubTaskL) :=
          match dictGetD m "tasks" .null with
          | .arr ts => parseSubTasks ts
          | .obj [] => some []
          | .str "" => some []
          | _ => none
        match planTasks with
        | some tasks =>
          let plan2 := { plan with phase := "plan", tasks := tasks }
          some (match tasks with
            | [] => plan2
            | t :: _ =>
              { plan2 with current_task_id := some (.num (t.id : ℚ)), phase := "execute" })
        | none => none
      else some plan
    match afterPlan with
    | none => { plan with phase := "plan" }
    | some plan1 =>
      let plan2 :=
        match dictRawGet m "task_completed" with
        | some cid =>
          { plan1 with tasks := markFirst plan1.tasks (fun t => pyEqInt t.id cid) "completed" }
        | none => plan1
      match dictRawGet m "current_task_id" with
      | some cur =>
        { plan2 with current_task_id := some cur,
                     tasks := markFirst plan2.tasks (fun t => pyEqInt t.id cur) "in_progress" }
      | none => plan2
  | _ => plan

/-- The number of sub-tasks currently marked `in_progress`. -/
def inProgressCount (tasks : List SubTaskL) : ℕ :=
  (tasks.filter (fun t => t.status == "in_progress")).length

/-! ### Task-plan lemmas -/

lemma inProgressCount_cons (t : SubTaskL) (ts : List SubTaskL) :
    inProgressCount (t :: ts) =
      (if t.status == "in_progress" then 1 else 0) + inProgressCount ts := by
  simp only [inProgressCount, List.filter_cons]
  by_cases h : (t.status == "in_progress") = true <;> simp [h] <;> omega

lemma inProgressCount_markFirst_inprogress_le (tasks : List SubTaskL) (p : SubTaskL → Bool) :
    inProgressCount (markFirst tasks p "in_progress") ≤ inProgressCount tasks + 1 := by
  induction tasks with
  | nil => simp [markFirst, inProgressCount]
  | cons t ts ih =>
    by_cases hp : p t = true
    · simp only [markFirst, if_pos hp, inProgressCount_cons]
      by_cases ht : (t.status == "in_progress") = true <;> simp [ht] <;> omega
    · simp only [markFirst, if_neg hp, inProgressCount_cons]
      omega

lemma inProgressCount_markFirst_completed_le (tasks : List SubTaskL) (p : SubTaskL → Bool) :
    inProgressCount (markFirst tasks p "completed") ≤ inProgressCount tasks := by
  induction tasks with
  | nil => simp [markFirst, inProgressCount]
  | cons t ts ih =>
    by_cases hp : p t = true
    · simp only [markFirst, if_pos hp, inProgressCount_cons]
      have hne : (("completed" : String) == "in_progress") = false := by decide
      rw [hne]
      by_cases ht : (t.status == "in_progress") = true <;> simp [ht] <;> omega
    · simp only [markFirst, if_neg hp, inProgressCount_cons]
      omega

lemma markFirst_append_first_match (pre post : List SubTaskL) (t : SubTaskL)
    (p : SubTaskL → Bool) (s : String) (hpre : ∀ u ∈ pre, p u = false) (hpt : p t = true) :
    markFirst (pre ++ t :: post) p s = pre ++ { t with status := s } :: post := by
  induction pre with
  | nil => simp [markFirst, hpt]
  | cons u us ih =>
    have hu : p u = false := hpre u (by simp)
    simp only [List.cons_append, markFirst, hu, Bool.false_eq_true, if_false, List.cons.injEq,
      true_and]
    exact ih (fun v hv => hpre v (by simp [hv]))

lemma markFirst_no_match (tasks : List SubTaskL) (p : SubTaskL → Bool) (s : String)
    (h : ∀ u ∈ tasks, p u = false) : markFirst tasks p s = tasks := by
  induction tasks with
  | nil => rfl
  | cons t ts ih =>
    have ht : p t = false := h t (by simp)
    simp only [markFirst, ht, Bool.false_eq_true, if_false, List.cons.injEq, true_and]
    exact ih (fun v hv => h v (by simp [hv]))

/-! ### The plan-update claims -/

/-- The example plan response with two pending sub-tasks. -/
def exPlanJson : Json :=
  .obj [("phase", .str "plan"),
        ("tasks", .arr [.obj [("id", .num 1), ("name", .str "a")],
                        .obj [("id", .num 2), ("name", .str "b")]])]

/-- A `current_task_id` response naming id `n`. -/
def exCurJson (n : ℚ) : Json := .obj [("current_task_id", .num n)]

/-- The plan state after initializing two tasks and then naming
`current_task_id` 1, 2 and 99 in consecutive responses. -/
def exPlanC5 : TaskPlanL :=
  updateTaskPlan (updateTaskPlan (updateTaskPlan (updateTaskPlan {} exPlanJson)
    (exCurJson 1)) (exCurJson 2)) (exCurJson 99)

/-- C5 counterexample: after the response sequence
`plan(tasks 1, 2)`, `current_task_id=1`, `current_task_id=2`,
`current_task_id=99`, both sub-tasks are simultaneously `in_progress`
(the previous one is never demoted) and `current_task_id` holds `99`,
which matches no existing sub-task id — both halves of the claimed
invariant fail on a reachable state. -/
theorem C5_invariant_counterexample :
    exPlanC5.tasks = [⟨1, "a", "in_progress"⟩, ⟨2, "b", "in_progress"⟩] ∧
    exPlanC5.current_task_id = some (Json.num 99) ∧
    (∀ t ∈ exPlanC5.tasks, t.id ≠ 99) := by
  refine ⟨by decide, rfl, by decide⟩

/-- C5 (amended): a single response that is not a plan initialization
increases the number of `in_progress` sub-tasks by at most one, and a plan
initialization with a successfully parsed non-empty `tasks` array sets
`current_task_id` to the id of the first task, which exists in the plan;
the stronger claimed invariant (globally at most one `InProgress`, and
`current_task_id` always referencing an existing id) does not hold, since
successive `current_task_id` responses never demote the previous task and
the stored id is unvalidated. -/
theorem C5_invariant_amended :
    (∀ (plan : TaskPlanL) (m : List (String × Json)),
      planCond m = false →
      inProgressCount (updateTaskPlan plan (.obj m)).tasks ≤ inProgressCount plan.tasks + 1) ∧
    (∀ (plan : TaskPlanL) (m : List (String × Json)) (ts : List Json)
        (t : SubTaskL) (rest : List SubTaskL),
      planCond m = true →
      dictGetD m "tasks" .null = .arr ts →
      parseSubTasks ts = some (t :: rest) →
      dictRawGet m "task_completed" = none →
      dictRawGet m "current_task_id" = none →
      (updateTaskPlan plan (.obj m)).current_task_id = some (.num (t.id : ℚ)) ∧
      t ∈ (updateTaskPlan plan (.obj m)).tasks) := by
  constructor
  · intro plan m hpc
    simp only [updateTaskPlan, hpc, Bool.false_eq_true, if_false]
    cases hc : dictRawGet m "task_completed" with
    | none =>
      cases hu : dictRawGet m "current_task_id" with
      | none => simp
      | some cur =>
        simpa using inProgressCount_markFirst_inprogress_le plan.tasks
          (fun t => pyEqInt t.id cur)
    | some cid =>
      cases hu : dictRawGet m "current_task_id" with
      | none =>
        simpa using Nat.le_succ_of_le
          (inProgressCount_markFirst_completed_le plan.tasks (fun t => pyEqInt t.id cid))
      | some cur =>
        calc inProgressCount (markFirst
              (markFirst plan.tasks (fun t => pyEqInt t.id cid) "completed")
              (fun t => pyEqInt t.id cur) "in_progress")
            ≤ inProgressCount
                (markFirst plan.tasks (fun t => pyEqInt t.id cid) "completed") + 1 :=
              inProgressCount_markFirst_inprogress_le _ _
          _ ≤ inProgressCount plan.tasks + 1 :=
              Nat.add_le_add_right (inProgressCount_markFirst_completed_le _ _) 1
  · intro plan m ts t rest hpc hts hparse hc hu
    simp [updateTaskPlan, hpc, hts, hparse, hc, hu]

/-- Concrete instantiation of `C5_invariant_amended`: a lone
`current_task_id` response adds at most one `in_progress` mark, and the
two-task plan response stores the first task's id. -/
theorem C5_invariant_amended_witness :
    (planCond [("current_task_id", Json.num 1)] = false ∧
      inProgressCount (updateTaskPlan {} (.obj [("current_task_id", Json.num 1)])).tasks ≤
        inProgressCount (TaskPlanL.tasks {}) + 1) ∧
    ((updateTaskPlan {} (.obj [("phase", Json.str "plan"),
        ("tasks", Json.arr [.obj [("id", Json.num 1), ("name", Json.str "a")],
                            .obj [("id", Json.num 2), ("name", Json.str "b")]])])).current_task_id =
        some (.num ((1 : ℤ) : ℚ)) ∧
      (⟨1, "a", "pending"⟩ : SubTaskL) ∈ (updateTaskPlan {} (.obj [("phase", Json.str "plan"),
        ("tasks", Json.arr [.obj [("id", Json.num 1), ("name", Json.str "a")],
                            .obj [("id", Json.num 2), ("name", Json.str "b")]])])).tasks) :=
  ⟨⟨rfl, C5_invariant_amended.1 {} [("current_task_id", Json.num 1)] rfl⟩,
   C5_invariant_amended.2 {} [("phase", Json.str "plan"),
      ("tasks", Json.arr [.obj [("id", Json.num 1), ("name", Json.str "a")],
                          .obj [("id", Json.num 2), ("name", Json.str "b")]])]
      [.obj [("id", Json.num 1), ("name", Json.str "a")],
       .obj [("id", Json.num 2), ("name", Json.str "b")]]
      ⟨1, "a", "pending"⟩ [⟨2, "b", "pending"⟩] rfl rfl rfl rfl rfl⟩

/-- A plan response with a single task and no explicit status. -/
def exPlanJson1 : Json :=
  .obj [("phase", .str "plan"), ("tasks", .arr [.obj [("id", .num 1), ("name", .str "a")]])]

/-- A plan response whose tasks array is malformed (an entry without an
`id`). -/
def exBadPlanJson : Json :=
  .obj [("phase", .str "plan"), ("tasks", .arr [.obj [("name", .str "x")]])]

/-- C6 counterexample: the plan response `［phase plan, tasks [id 1, name a]］`
leaves the first task's status at `"pending"` — it is *not* marked
`in_progress` (only `current_task_id` is set) — and the malformed plan
response (entry without `id`) does *not* leave the Task Plan unchanged: its
`phase` is mutated from `"init"` to `"plan"` before the parse error aborts
the update. -/
theorem C6_plan_update_counterexample :
    (updateTaskPlan {} exPlanJson1).tasks = [⟨1, "a", "pending"⟩] ∧
    (∀ t ∈ (updateTaskPlan {} exPlanJson1).tasks, t.status ≠ "in_progress") ∧
    (updateTaskPlan {} exPlanJson1).current_task_id = some (Json.num ((1 : ℤ) : ℚ)) ∧
    (updateTaskPlan {} exBadPlanJson).phase = "plan" ∧
    TaskPlanL.phase {} = "init" := by
  exact ⟨by decide, by decide, rfl, by decide, by decide⟩

/-- C6 (amended): a `phase="plan"` response with a well-formed non-empty
`tasks` array (re)initializes the Task Plan to exactly those tasks, with
the statuses given in the response (default `pending` — the first task's
status is *not* changed to `in_progress`), sets `current_task_id` to the
first task's id and `phase` to `"execute"`; a `task_completed` response
marks the first task with that id `completed`; a `current_task_id` response
stores the raw id and marks the first task with that id `in_progress`;
absence of all these fields leaves the Task Plan unchanged (a *malformed*
`tasks` array, however, still mutates `phase` to `"plan"`). -/
theorem C6_plan_update_amended :
    (∀ (plan : TaskPlanL) (m : List (String × Json)) (ts : List Json)
        (t : SubTaskL) (rest : List SubTaskL),
      planCond m = true →
      dictGetD m "tasks" .null = .arr ts →
      parseSubTasks ts = some (t :: rest) →
      dictRawGet m "task_completed" = none →
      dictRawGet m "current_task_id" = none →
      updateTaskPlan plan (.obj m) =
        ⟨t :: rest, some (.num (t.id : ℚ)), "execute"⟩) ∧
    (∀ (plan : TaskPlanL) (m : List (String × Json)) (cid : Json),
      planCond m = false →
      dictRawGet m "task_completed" = some cid →
      dictRawGet m "current_task_id" = none →
      updateTaskPlan plan (.obj m) =
        { plan with tasks := markFirst plan.tasks (fun t => pyEqInt t.id cid) "completed" }) ∧
    (∀ (plan : TaskPlanL) (m : List (String × Json)) (cur : Json),
      planCond m = false →
      dictRawGet m "task_completed" = none →
      dictRawGet m "current_task_id" = some cur →
      updateTaskPlan plan (.obj m) =
        { plan with current_task_id := some cur,
                    tasks := markFirst plan.tasks (fun t => pyEqInt t.id cur) "in_progress" }) ∧
    (∀ (plan : TaskPlanL) (m : List (String × Json)),
      planCond m = false →
      dictRawGet m "task_completed" = none →
      dictRawGet m "current_task_id" = none →
      updateTaskPlan plan (.obj m) = plan) ∧
    (∀ (pre post : List SubTaskL) (t : SubTaskL) (p : SubTaskL → Bool) (s : String),
      (∀ u ∈ pre, p u = false) → p t = true →
      markFirst (pre ++ t :: post) p s = pre ++ { t with status := s } :: post) := by
  refine ⟨?_, ?_, ?_, ?_, markFirst_append_first_match⟩
  · intro plan m ts t rest hpc hts hparse hc hu
    simp [updateTaskPlan, hpc, hts, hparse, hc, hu]
  · intro plan m cid hpc hc hu
    simp [updateTaskPlan, hpc, hc, hu]
  · intro plan m cur hpc hc hu
    simp [updateTaskPlan, hpc, hc, hu]
  · intro plan m hpc hc hu
    simp [updateTaskPlan, hpc, hc, hu]

/-- Concrete instantiation of `C6_plan_update_amended`: the one-task plan
response initializes the plan, and a response without any of the tracked
fields leaves it unchanged. -/
theorem C6_plan_update_amended_witness :
    updateTaskPlan {} (.obj [("phase", .str "plan"),
        ("tasks", .arr [.obj [("id", .num 1), ("name", .str "a")]])]) =
      ⟨[⟨1, "a", "pending"⟩], some (.num (((1 : ℤ) : ℚ))), "execute"⟩ ∧
    updateTaskPlan ⟨[⟨1, "a", "pending"⟩], none, "init"⟩ (.obj [("x", .num 0)]) =
      ⟨[⟨1, "a", "pending"⟩], none, "init"⟩ :=
  ⟨C6_plan_update_amended.1 {} [("phase", .str "plan"),
      ("tasks", .arr [.obj [("id", .num 1), ("name", .str "a")]])]
      [.obj [("id", .num 1), ("name", .str "a")]] ⟨1, "a", "pending"⟩ []
      rfl rfl rfl rfl rfl,
   C6_plan_update_amended.2.2.2.1 ⟨[⟨1, "a", "pending"⟩], none, "init"⟩
      [("x", .num 0)] rfl rfl rfl⟩

/-! ## History summarization (`phone_agent/agent/core.py`,
`PhoneAgent._summarize_history`) -/

/-- A conversation message (`{"role": ..., "content": ...}` dict). -/
structure Message where
  role : String
  content : String
  deriving DecidableEq

/-- Python `sep.join(parts)`. -/
def joinSep (sep : String) : List String → String
  | [] => ""
  | [x] => x
  | x :: xs => x ++ sep ++ joinSep sep xs

/-- The synthesized summary text of `_summarize_history` (lines 538-567):
the completed/pending sub-task blocks from the Task Plan, the bounded
recent-actions block, the pending-count tail line, and the compressed-count
footer, joined exactly as the source's f-string does.  `completedActions`
is the list of action/outcome strings extracted from the history messages. -/
def summaryContent (completedActions : List String) (plan : TaskPlanL) (nHist : ℕ) : String :=
  let pendingTasks := plan.tasks.filter (fun t => t.status ≠ "completed")
  let completedTaskNames := plan.tasks.filter (fun t => t.status = "completed")
  let planParts : List String :=
    if plan.tasks ≠ [] then
      (if completedTaskNames ≠ [] then
        ["【已完成的子任务】\n" ++
          joinSep "\n" (completedTaskNames.map (fun t => "✅ " ++ t.name))]
      else []) ++
      (if pendingTasks ≠ [] then
        ["【待完成的子任务】⚠️ 重要！\n" ++
          joinSep "\n" (pendingTasks.map (fun t => "⏳ " ++ toString t.id ++ ". " ++ t.name))]
      else [])
    else []
  let actionParts : List String :=
    if completedActions ≠ [] then
      ["【最近执行的操作】\n" ++
        joinSep "\n" ((completedActions.drop (completedActions.length - 10)).map
          (fun a => "• " ++ a))]
    else []
  let pendingInfo :=
    if plan.tasks ≠ [] then
      if pendingTasks ≠ [] then
        "\n\n🎯 还有 " ++ toString pendingTasks.length ++ " 个子任务未完成，继续执行！"
      else "\n\n✅ 所有子任务已完成，请调用 finish。"
    else ""
  "[历史摘要]\n" ++ joinSep "\n" (planParts ++ actionParts) ++ "\n" ++ pendingInfo ++
    "\n(已压缩 " ++ toString nHist ++ " 条历史消息)"

/-- `system_msg = self._messages[0] if self._messages[0]["role"] == "system"
else None`. -/
def systemOf (msgs : List Message) : Option Message :=
  match msgs with
  | m :: _ => if m.role = "system" then some m else none
  | [] => none

/-- `history_msgs`: `self._messages[1:-4]` when a system message leads,
`self._messages[:-4]` otherwise (Python slices clamp like `Nat`
subtraction). -/
def historyOf (msgs : List Message) : List Message :=
  match systemOf msgs with
  | some _ => (msgs.take (msgs.length - 4)).drop 1
  | none => msgs.take (msgs.length - 4)

/-- `PhoneAgent._summarize_history`.  The extraction of action/outcome
strings from the assistant/user history messages (a regex scan) is kept
abstract as the `extract` parameter; the claims hold for every such
function. -/
def summarize_history (extract : List Message → List String) (plan : TaskPlanL)
    (msgs : List Message) : List Message :=
  if msgs.length ≤ 3 then msgs
  else
    let recentMsgs := msgs.drop (msgs.length - 4)
    if historyOf msgs = [] then msgs
    else
      let completedActions := extract (historyOf msgs)
      (match systemOf msgs with | some m => [m] | none => []) ++
        [⟨"user", summaryContent completedActions plan (historyOf msgs).length⟩] ++ recentMsgs

/-! ### Substring machinery for the summary-content claim -/

/-- `needle` occurs contiguously inside `hay`. -/
def strHas (hay needle : String) : Prop :=
  ∃ pre post : List Char, pre ++ needle.data ++ post = hay.data

lemma string_data_append (s t : String) : (s ++ t).data = s.data ++ t.data := by
  cases s; cases t; rfl

lemma strHas_self_mid (x n y : String) : strHas (x ++ n ++ y) n :=
  ⟨x.data, y.data, by simp [string_data_append]⟩

lemma strHas_self (n : String) : strHas n n :=
  ⟨[], [], by simp⟩

lemma strHas_appendL (x a n : String) (h : strHas a n) : strHas (x ++ a) n := by
  obtain ⟨p, q, e⟩ := h
  exact ⟨x.data ++ p, q, by rw [string_data_append, ← e]; simp⟩

lemma strHas_appendR (a y n : String) (h : strHas a n) : strHas (a ++ y) n := by
  obtain ⟨p, q, e⟩ := h
  exact ⟨p, q ++ y.data, by rw [string_data_append, ← e]; simp⟩

lemma strHas_trans (a b c : String) (hab : strHas a b) (hbc : strHas b c) : strHas a c := by
  obtain ⟨p1, q1, e1⟩ := hab
  obtain ⟨p2, q2, e2⟩ := hbc
  exact ⟨p1 ++ p2, q2 ++ q1, by rw [← e1, ← e2]; simp⟩

lemma joinSep_strHas (sep : String) (l : List String) (a : String) (ha : a ∈ l) :
    strHas (joinSep sep l) a := by
  induction l with
  | nil => cases ha
  | cons x xs ih =>
    cases xs with
    | nil =>
      have : a = x := by simpa using ha
      subst this
      exact strHas_self a
    | cons y ys =>
      rcases List.mem_cons.mp ha with h | h
      · subst h
        exact strHas_appendR _ _ _ (strHas_appendR _ _ _ (strHas_self a))
      · exact strHas_appendL _ _ _ (ih h)

/-- Every still-pending sub-task's name occurs verbatim in the synthesized
summary text. -/
lemma pending_name_in_summaryContent (acts : List String) (plan : TaskPlanL) (n : ℕ)
    (t : SubTaskL) (ht : t ∈ plan.tasks) (hst : t.status ≠ "completed") :
    strHas (summaryContent acts plan n) t.name := by
  have htasks : plan.tasks ≠ [] := List.ne_nil_of_mem ht
  have htp : t ∈ plan.tasks.filter (fun t => t.status ≠ "completed") := by
    rw [List.mem_filter]
    exact ⟨ht, by simpa using hst⟩
  have hpne : plan.tasks.filter (fun t => t.status ≠ "completed") ≠ [] :=
    List.ne_nil_of_mem htp
  have h1 : strHas ("⏳ " ++ toString t.id ++ ". " ++ t.name) t.name :=
    ⟨("⏳ " ++ toString t.id ++ ". ").data, [], by simp [string_data_append]⟩
  have h2 : strHas (joinSep "\n"
      ((plan.tasks.filter (fun t => t.status ≠ "completed")).map
        (fun t => "⏳ " ++ toString t.id ++ ". " ++ t.name)))
      ("⏳ " ++ toString t.id ++ ". " ++ t.name) :=
    joinSep_strHas _ _ _ (List.mem_map_of_mem _ htp)
  have h3 : strHas ("【待完成的子任务】⚠️ 重要！\n" ++
      joinSep "\n" ((plan.tasks.filter (fun t => t.status ≠ "completed")).map
        (fun t => "⏳ " ++ toString t.id ++ ". " ++ t.name))) t.name :=
    strHas_appendL _ _ _ (strHas_trans _ _ _ h2 h1)
  simp only [summaryContent, if_pos htasks, if_pos hpne]
  refine strHas_appendR _ _ _ (strHas_appendR _ _ _ (strHas_appendR _ _ _
    (strHas_appendR _ _ _ (strHas_appendR _ _ _ (strHas_appendL _ _ _ ?_)))))
  exact strHas_trans _ _ _ (joinSep_strHas _ _ _ (by simp)) h3

/-! ### The summarization claims -/

/-- C7: when summarization fires on a list led by a system message with at
least one message strictly between it and the most recent four, the
post-summarization list is exactly the system message, one synthesized
summary message, and the most recent four pre-summarization messages
verbatim and in order. -/
theorem C7_summarization_frame :
    ∀ (extract : List Message → List String) (plan : TaskPlanL) (m : Message)
      (rest : List Message),
      m.role = "system" → 6 ≤ (m :: rest).length →
      ∃ c, summarize_history extract plan (m :: rest) =
          m :: ⟨"user", c⟩ :: (m :: rest).drop ((m :: rest).length - 4) ∧
        ((m :: rest).drop ((m :: rest).length - 4)).length = 4 := by
  intro extract plan m rest hrole hlen
  simp only [List.length_cons] at hlen
  have h3 : ¬((m :: rest).length ≤ 3) := by
    simp only [List.length_cons]
    omega
  have hsys : systemOf (m :: rest) = some m := by
    simp [systemOf, hrole]
  have hhne : historyOf (m :: rest) ≠ [] := by
    simp only [historyOf, hsys]
    intro h0
    have := congrArg List.length h0
    simp only [List.length_drop, List.length_take, List.length_cons, List.length_nil] at this
    omega
  refine ⟨summaryContent (extract (historyOf (m :: rest))) plan
    (historyOf (m :: rest)).length, ?_, ?_⟩
  · simp only [summarize_history, if_neg h3, if_neg hhne, hsys]
    simp
  · simp only [List.length_drop, List.length_cons]
    omega

/-- The six-message conversation used to instantiate the summarization
claims. -/
def exMsgs : List Message :=
  [⟨"system", "S"⟩, ⟨"user", "T"⟩, ⟨"assistant", "a1"⟩, ⟨"user", "f1"⟩,
   ⟨"assistant", "a2"⟩, ⟨"user", "f2"⟩]

/-- A Task Plan with three non-completed sub-tasks. -/
def exPlan3 : TaskPlanL :=
  ⟨[⟨1, "买菜", "pending"⟩, ⟨2, "做饭", "in_progress"⟩, ⟨3, "洗碗", "pending"⟩],
   some (.num 1), "execute"⟩

/-- Concrete instantiation of `C7_summarization_frame` on a six-message
conversation. -/
theorem C7_summarization_frame_witness :
    (Message.role ⟨"system", "S"⟩ = "system") ∧
    (6 ≤ exMsgs.length) ∧
    ∃ c, summarize_history (fun _ => []) {} exMsgs =
        ⟨"system", "S"⟩ :: ⟨"user", c⟩ :: exMsgs.drop (exMsgs.length - 4) ∧
      (exMsgs.drop (exMsgs.length - 4)).length = 4 :=
  ⟨rfl, by decide,
   C7_summarization_frame (fun _ => []) {} ⟨"system", "S"⟩
     [⟨"user", "T"⟩, ⟨"assistant", "a1"⟩, ⟨"user", "f1"⟩, ⟨"assistant", "a2"⟩, ⟨"user", "f2"⟩]
     rfl (by decide)⟩

/-- C8: whenever summarization fires, every sub-task of the Task Plan that
is not `completed` has its name occur verbatim in the synthesized summary
message — none is dropped, for every possible action-extraction result. -/
theorem C8_pending_tasks_listed_in_summary :
    ∀ (extract : List Message → List String) (plan : TaskPlanL) (msgs : List Message)
      (t : SubTaskL),
      3 < msgs.length → historyOf msgs ≠ [] →
      t ∈ plan.tasks → t.status ≠ "completed" →
      ∃ msg ∈ summarize_history extract plan msgs, strHas msg.content t.name := by
  intro extract plan msgs t hlen hh ht hst
  have h3 : ¬(msgs.length ≤ 3) := by omega
  refine ⟨⟨"user", summaryContent (extract (historyOf msgs)) plan (historyOf msgs).length⟩,
    ?_, ?_⟩
  · simp only [summarize_history, if_neg h3, if_neg hh]
    cases systemOf msgs <;> simp
  · exact pending_name_in_summaryContent _ _ _ _ ht hst

/-- Concrete instantiation of `C8_pending_tasks_listed_in_summary`: all
three non-completed sub-task names survive into the summary message. -/
theorem C8_pending_tasks_listed_in_summary_witness :
    (∃ msg ∈ summarize_history (fun _ => []) exPlan3 exMsgs,
      strHas msg.content (SubTaskL.name ⟨1, "买菜", "pending"⟩)) ∧
    (∃ msg ∈ summarize_history (fun _ => []) exPlan3 exMsgs,
      strHas msg.content (SubTaskL.name ⟨2, "做饭", "in_progress"⟩)) ∧
    (∃ msg ∈ summarize_history (fun _ => []) exPlan3 exMsgs,
      strHas msg.content (SubTaskL.name ⟨3, "洗碗", "pending"⟩)) :=
  ⟨C8_pending_tasks_listed_in_summary (fun _ => []) exPlan3 exMsgs ⟨1, "买菜", "pending"⟩
      (by decide) (by decide) (by decide) (by decide),
   C8_pending_tasks_listed_in_summary (fun _ => []) exPlan3 exMsgs ⟨2, "做饭", "in_progress"⟩
      (by decide) (by decide) (by decide) (by decide),
   C8_pending_tasks_listed_in_summary (fun _ => []) exPlan3 exMsgs ⟨3, "洗碗", "pending"⟩
      (by decide) (by decide) (by decide) (by decide)⟩

end PhoneAgent
